import Mathlib

/-!
Verification development for the `@tralse/postgres-middleware` repository.

The development shallowly embeds the deadlock-aware query executor
(`executeDbQuery` in `src/lib/query.ts`), the transaction lifecycle manager
(`initializeDbTransaction` in `src/lib/transactions.ts`) and the connection
session boundary (`src/index.ts`).  A connection handle is modelled as a pure
response function from a SQL string and a parameter value to either a result
set or a classified failure; each embedded operation additionally returns the
ordered trace of calls it issued on the handle, so that ordering and
"no call issued" properties can be stated.
-/

deriving instance DecidableEq for Except

/-- A database result set, standing for the driver `QueryResult`. -/
structure QueryRes where
  rows : List String
deriving DecidableEq, Repr

/-- A JavaScript parameter value one level down: either a scalar or an array
of scalars.  Elements of a multi-statement parameter array have this shape. -/
inductive JVal1 where
  | str (s : String)
  | arr (ss : List String)
deriving DecidableEq, Repr

/-- A JavaScript value as passed in the `params` position: absent
(`undefined`), a scalar, or an array of `JVal1` elements. -/
inductive JsVal where
  | undef
  | str (s : String)
  | arr (vs : List JVal1)
deriving DecidableEq, Repr

/-- Embeds a parameter-array element back into the value universe, as
happens when `params[i]` is handed to `client.query`. -/
def JVal1.toJsVal : JVal1 → JsVal
  | .str s => .str s
  | .arr ss => .arr (ss.map JVal1.str)

/-- Modelled from the spec: the error classes of `src/errors/error.ts`,
which is absent from the sources.  Per the repository README,
`DatabaseError` carries default code `DB_ERR` and `TransactionError` default
code `TRANSACTION_ERR`; raw driver failures (PostgreSQL errors) are a third
kind that is deliberately not an instance of either class. -/
inductive JsError where
  | databaseError (message : String) (code : String)
  | transactionError (message : String) (code : String)
  | pgError (message : String) (code : String)
deriving DecidableEq, Repr

/-- The `code` field of an error object. -/
def JsError.code : JsError → String
  | .databaseError _ c => c
  | .transactionError _ c => c
  | .pgError _ c => c

/-- The `message` field of an error object. -/
def JsError.message : JsError → String
  | .databaseError m _ => m
  | .transactionError m _ => m
  | .pgError m _ => m

/-- `error instanceof DatabaseError`. -/
def JsError.isDatabaseError : JsError → Bool
  | .databaseError _ _ => true
  | _ => false

/-- `error instanceof TransactionError`. -/
def JsError.isTransactionError : JsError → Bool
  | .transactionError _ _ => true
  | _ => false

/-- `new DatabaseError(message)` with the README-documented default code. -/
def newDatabaseError (message : String) : JsError :=
  .databaseError message "DB_ERR"

/-- `new TransactionError(message)` with the README-documented default code. -/
def newTransactionError (message : String) : JsError :=
  .transactionError message "TRANSACTION_ERR"

/-- The no-client error message used across the repository. -/
def connMsg : String :=
  "Could\x27nt find a client connection. Make sure that you have initialized the client connection before proceeding to this method."

/-- A connection handle: a pure response function from a statement and its
parameters to a result or a classified failure. -/
abbrev ClientFn := String → JsVal → Except JsError QueryRes

/-- One call issued on the connection handle: the statement and its params. -/
abbrev Call := String × JsVal

/-- Modelled from the spec: the conflict signature recognized by the
deadlock-aware executor of `src/lib/deadlock.ts` (absent from the sources) —
a serialization failure or a detected deadlock, the two PostgreSQL
concurrency-control failure codes. -/
def isConflict (e : JsError) : Bool :=
  e.code == "40001" || e.code == "40P01"

/-- Modelled from the spec: the retry loop of `manageDeadlocks` from
`src/lib/deadlock.ts` (absent from the sources).  `attempt` is the 1-based
attempt number and `fuel` the number of retries still allowed.  The unit of
work returns a result together with the trace of calls it issued; the loop
returns the result, the concatenation of the traces of all attempts, and the
number of invocations performed.  Backoff delays are timing only and are not
modelled. -/
def retryLoop {α τ : Type} (work : Nat → Except JsError α × List τ) :
    Nat → Nat → Except JsError α × List τ × Nat
  | attempt, fuel =>
    match work attempt with
    | (.ok a, t) => (.ok a, t, 1)
    | (.error e, t) =>
      if isConflict e then
        match fuel with
        | 0 => (.error e, t, 1)
        | f + 1 =>
          match retryLoop work (attempt + 1) f with
          | (r, t2, n) => (r, t ++ t2, n + 1)
      else (.error e, t, 1)

/-- Modelled from the spec: `manageDeadlocks(maxAttempts, work)` from
`src/lib/deadlock.ts` (absent from the sources).  Invokes the unit of work;
a failure bearing the conflict signature is retried, up to `maxAttempts`
total invocations; any other failure, or the final conflict failure once
attempts are exhausted, is propagated unchanged. -/
def manageDeadlocks {α τ : Type} (maxAttempts : Nat)
    (work : Nat → Except JsError α × List τ) : Except JsError α × List τ × Nat :=
  retryLoop work 1 (maxAttempts - 1)

/-- The outcome of `executeDbQuery`: one result or an ordered list. -/
abbrev QueryOutcome := QueryRes ⊕ List QueryRes

/-- Execution options recognized by `executeDbQuery`. -/
structure ExecOptions where
  parallel : Bool := false
deriving DecidableEq, Repr

/-- The sequential multi-statement loop of `executeDbQuery`: runs each
statement in order, stopping at the first failure; returns the collected
results (or the first failure) together with the trace of issued calls. -/
def runSeq (c : ClientFn) : List Call → Except JsError (List QueryRes) × List Call
  | [] => (.ok [], [])
  | (s, p) :: rest =>
    match c s p with
    | .error e => (.error e, [(s, p)])
    | .ok r =>
      match runSeq c rest with
      | (.ok rs, calls) => (.ok (r :: rs), (s, p) :: calls)
      | (.error e, calls) => (.error e, (s, p) :: calls)

/-- The first rejection among the dispatched statement outcomes, scanned in
the given completion order (the order in which the promises settle). -/
def firstRejection (outcomes : List (Except JsError QueryRes)) :
    List Nat → Option JsError
  | [] => none
  | i :: rest =>
    match outcomes.getD i (.ok ⟨[]⟩) with
    | .error e => some e
    | .ok _ => firstRejection outcomes rest

/-- Collects fulfilled outcomes positionally, as `Promise.all` shapes its
fulfillment value: one result per input statement, in input order. -/
def collectOk : List (Except JsError QueryRes) → Except JsError (List QueryRes)
  | [] => .ok []
  | .ok r :: rest => (collectOk rest).map (r :: ·)
  | .error e :: _ => .error e

/-- `Promise.all` over the dispatched statement outcomes: rejects with the
first rejection in completion order, otherwise fulfills with the results in
input order. -/
def promiseAll (outcomes : List (Except JsError QueryRes)) (order : List Nat) :
    Except JsError (List QueryRes) :=
  match firstRejection outcomes order with
  | some e => .error e
  | none => collectOk outcomes

/-- One attempt of the unit of work inside `executeDbQuery`
(`src/lib/query.ts`): checks the client handle, validates the
statement/parameter shape, then runs the single statement, the sequential
loop, or the parallel dispatch.  `order` is the completion order of the
parallel promises; it is irrelevant in every other branch. -/
def executeDbQueryAttempt (client : Option ClientFn) (sql : String ⊕ List String)
    (params : JsVal) (options : ExecOptions) (order : List Nat) :
    Except JsError QueryOutcome × List Call :=
  match client with
  | none => (.error (newDatabaseError connMsg), [])
  | some c =>
    match sql with
    | .inl s =>
      match c s params with
      | .ok r => (.ok (.inl r), [(s, params)])
      | .error e => (.error e, [(s, params)])
    | .inr sqls =>
      match params with
      | .arr ps =>
        if sqls.length = ps.length then
          let stmts := sqls.zip (ps.map JVal1.toJsVal)
          if options.parallel then
            ((promiseAll (stmts.map fun sp => c sp.1 sp.2) order).map .inr, stmts)
          else
            match runSeq c stmts with
            | (r, calls) => (r.map .inr, calls)
        else (.error (newDatabaseError "Mismatched SQL queries and parameters."), [])
      | _ => (.error (newDatabaseError "Mismatched SQL queries and parameters."), [])

/-- `executeDbQuery` from `src/lib/query.ts`: the one-attempt unit of work
wrapped in `manageDeadlocks` with an attempt budget of 3.  Returns the
outcome, the call trace across all attempts, and the invocation count. -/
def executeDbQuery (client : Option ClientFn) (sql : String ⊕ List String)
    (params : JsVal) (options : ExecOptions) (order : List Nat) :
    Except JsError QueryOutcome × List Call × Nat :=
  manageDeadlocks 3 (fun _ => executeDbQueryAttempt client sql params options order)

/-- Modelled from the spec: a reference produced by the reference generator
`generateRefNo` of `src/helpers/ref.ts` (absent from the sources) — a unique
identifier together with a timestamp. -/
structure Ref where
  uuid : String
  timestamp : String
deriving DecidableEq, Repr

/-- The mutable closure state of a transaction lifecycle manager: the `uuid`
and `timestamp` variables of `initializeDbTransaction` (initially
`undefined`), plus the count of reference generations performed so far —
the device by which the external generator is modelled as a pure oracle
`Nat → Ref` consulted at successive indices. -/
structure TxState where
  uuid : Option String
  timestamp : Option String
  genCount : Nat
deriving DecidableEq, Repr

/-- The state of a freshly constructed transaction lifecycle manager. -/
def txStart : TxState := ⟨none, none, 0⟩

/-- The object returned by `retrieve()`. -/
structure Retrieved where
  connection : Bool
  referenceNo : Option String
  timestamp : Option String
deriving DecidableEq, Repr

namespace Tx

/-- The catch-clause rewrap shared by `init` and `query` in
`src/lib/transactions.ts`: a `DatabaseError` or `TransactionError` cause is
replaced by a fresh `TransactionError` whose message interpolates
`(error.message, error.code)` — the JavaScript comma operator, i.e. just the
cause code; any other error is rethrown unchanged. -/
def wrapInitQuery (e : JsError) : JsError :=
  if e.isDatabaseError || e.isTransactionError then
    newTransactionError ("Failed to initialize transaction: " ++ e.code)
  else e

/-- The catch clause of `commit` in `src/lib/transactions.ts`: a cause whose
code is not `CONN_NOT_INIT` becomes a fresh `TransactionError` whose message
interpolates the cause code; otherwise the cause message and code are
re-raised as a `TransactionError`. -/
def wrapCommit (e : JsError) : JsError :=
  if e.code == "CONN_NOT_INIT" then .transactionError e.message e.code
  else newTransactionError ("Failed to commit transaction: " ++ e.code)

/-- `init()` from `src/lib/transactions.ts`: throws the no-client
`DatabaseError` if the handle is absent, otherwise issues `BEGIN`; its catch
clause applies `wrapInitQuery`.  The closure state is untouched. -/
def init (client : Option ClientFn) (st : TxState) :
    Except JsError Unit × TxState × List Call :=
  match client with
  | none => (.error (wrapInitQuery (newDatabaseError connMsg)), st, [])
  | some c =>
    match c "BEGIN" .undef with
    | .ok _ => (.ok (), st, [("BEGIN", .undef)])
    | .error e => (.error (wrapInitQuery e), st, [("BEGIN", .undef)])

/-- `query()` from `src/lib/transactions.ts`: delegates to `executeDbQuery`;
on success regenerates the reference and overwrites the closure state with
it; on failure applies the same catch clause as `init` and leaves the state
untouched. -/
def query (client : Option ClientFn) (gen : Nat → Ref) (st : TxState)
    (sql : String ⊕ List String) (params : JsVal) (options : ExecOptions)
    (order : List Nat) : Except JsError QueryOutcome × TxState × List Call :=
  match executeDbQuery client sql params options order with
  | (.ok r, calls, _) =>
    let ref := gen st.genCount
    (.ok r, ⟨some ref.uuid, some ref.timestamp, st.genCount + 1⟩, calls)
  | (.error e, calls, _) => (.error (wrapInitQuery e), st, calls)

/-- `commit()` from `src/lib/transactions.ts`: throws the no-client
`DatabaseError` if the handle is absent, otherwise issues `COMMIT`; its
catch clause applies `wrapCommit` to every failure.  The closure state is
untouched. -/
def commit (client : Option ClientFn) (st : TxState) :
    Except JsError Unit × TxState × List Call :=
  match client with
  | none => (.error (wrapCommit (newDatabaseError connMsg)), st, [])
  | some c =>
    match c "COMMIT" .undef with
    | .ok _ => (.ok (), st, [("COMMIT", .undef)])
    | .error e => (.error (wrapCommit e), st, [("COMMIT", .undef)])

/-- `rollback()` from `src/lib/transactions.ts`: a no-op when no client is
bound; otherwise issues `ROLLBACK` with no surrounding try/catch, so a
failure of the command propagates unchanged.  The closure state is
untouched. -/
def rollback (client : Option ClientFn) (st : TxState) :
    Except JsError Unit × TxState × List Call :=
  match client with
  | none => (.ok (), st, [])
  | some c =>
    match c "ROLLBACK" .undef with
    | .ok _ => (.ok (), st, [("ROLLBACK", .undef)])
    | .error e => (.error e, st, [("ROLLBACK", .undef)])

/-- `retrieve()` from `src/lib/transactions.ts`: `connection` is the
truthiness of the bound client, and the reference fields read the closure
state. -/
def retrieve (client : Option ClientFn) (st : TxState) : Retrieved :=
  ⟨client.isSome, st.uuid, st.timestamp⟩

end Tx

/-- A call on the transaction lifecycle manager, for reasoning about
arbitrary operation sequences. -/
inductive TxOp where
  | opInit
  | opQuery (sql : String ⊕ List String) (params : JsVal) (options : ExecOptions)
      (order : List Nat)
  | opCommit
  | opRollback

/-- The closure state after one manager call. -/
def txStep (client : Option ClientFn) (gen : Nat → Ref) (st : TxState) :
    TxOp → TxState
  | .opInit => (Tx.init client st).2.1
  | .opQuery s p o ord => (Tx.query client gen st s p o ord).2.1
  | .opCommit => (Tx.commit client st).2.1
  | .opRollback => (Tx.rollback client st).2.1

/-- The closure state after a sequence of manager calls. -/
def txRun (client : Option ClientFn) (gen : Nat → Ref) :
    TxState → List TxOp → TxState
  | st, [] => st
  | st, op :: ops => txRun client gen (txStep client gen st op) ops

/-- `releaseConnection()` from `src/index.ts`: throws the no-client
`DatabaseError` inside its try block when no handle is held; the catch
clause returns silently only when the caught code is `CONN_NOT_INIT` and
otherwise re-throws a `DatabaseError` with the caught message and code.
The boolean reports whether `client.release()` was invoked on the pool. -/
def releaseConnection (client : Option ClientFn) : Except JsError Unit × Bool :=
  match client with
  | none =>
    let e := newDatabaseError connMsg
    if e.code == "CONN_NOT_INIT" then (.ok (), false)
    else (.error (.databaseError e.message e.code), false)
  | some _ => (.ok (), true)

/-- A handle on which every command succeeds with an empty result set. -/
def cOk : ClientFn := fun _ _ => .ok ⟨[]⟩

/-- A handle on which the abort command fails with a driver error and every
other command succeeds. -/
def cRB : ClientFn := fun s _ =>
  if s == "ROLLBACK" then .error (.pgError "connection terminated" "57P01")
  else .ok ⟨[]⟩

/-- A handle on which the commit command fails with a driver-reported
deadlock and every other command succeeds. -/
def cCM : ClientFn := fun s _ =>
  if s == "COMMIT" then .error (.pgError "deadlock detected" "40P01")
  else .ok ⟨[]⟩

/-- A handle on which every command fails with a driver syntax error — a
database-reported failure that is not an instance of the repository error
classes. -/
def cFailAll : ClientFn := fun _ _ => .error (.pgError "syntax error" "42601")

/-- A handle on which every command fails with a `DatabaseError` carrying
the `CONN_NOT_INIT` code. -/
def cConnNotInit : ClientFn := fun _ _ =>
  .error (.databaseError "connection not initialized" "CONN_NOT_INIT")

/-- A handle on which statement `"b"` fails with a driver syntax error and
every other statement succeeds. -/
def cSeq : ClientFn := fun s _ =>
  if s == "b" then .error (.pgError "syntax error" "42601") else .ok ⟨["r"]⟩

/-- A handle that answers every statement with a result echoing it. -/
def cEcho : ClientFn := fun s _ => .ok ⟨[s]⟩

/-- A concrete reference oracle producing pairwise distinct references. -/
def genW : Nat → Ref := fun n => ⟨"u" ++ toString n, "t" ++ toString n⟩

/-- A unit of work that fails with a conflict signature on every
invocation. -/
def workW : Nat → Except JsError Unit × List Unit :=
  fun _ => (.error (.pgError "deadlock detected" "40P01"), [])

/-- A unit of work that fails with a non-conflict failure on every
invocation. -/
def workW2 : Nat → Except JsError Unit × List Unit :=
  fun _ => (.error (newDatabaseError "boom"), [])

/-- Unrolling the retry budget: three total attempts means an initial fuel
of two retries. -/
theorem manageDeadlocks_three {α τ : Type} (work : Nat → Except JsError α × List τ) :
    manageDeadlocks 3 work = retryLoop work 1 2 := rfl

/-- A unit of work that succeeds on its first invocation is invoked once and
its result and trace are returned as-is. -/
theorem manageDeadlocks_const_ok {α τ : Type} (a : α) (t : List τ)
    (w : Except JsError α × List τ) (h : w = (.ok a, t)) :
    manageDeadlocks 3 (fun _ => w) = (.ok a, t, 1) := by
  subst h
  rw [manageDeadlocks]
  norm_num
  rw [retryLoop]

/-- A unit of work that deterministically fails is retried twice more when
the failure bears the conflict signature and not at all otherwise; either
way the failure surfaces unchanged. -/
theorem manageDeadlocks_const_err {α τ : Type} (e : JsError) (t : List τ)
    (w : Except JsError α × List τ) (h : w = (.error e, t)) :
    manageDeadlocks 3 (fun _ => w) =
      if isConflict e then (.error e, t ++ (t ++ t), 3) else (.error e, t, 1) := by
  subst h
  rw [manageDeadlocks]
  norm_num
  by_cases hc : isConflict e
  · rw [retryLoop]
    simp only [hc, if_true]
    rw [retryLoop]
    simp only [hc, if_true]
    rw [retryLoop]
    simp [hc]
  · rw [retryLoop]
    simp [hc]

/-- The sequential loop on a statement list whose first failure is at index
`i` surfaces that failure and issues exactly the calls for the statements up
to and including `i`, in input order. -/
theorem runSeq_fail_take (c : ClientFn) (stmts : List Call) :
    ∀ (i : Nat) (e : JsError),
      (∀ j, j < i → ∃ r, c (stmts.getD j ("", .undef)).1 (stmts.getD j ("", .undef)).2 = .ok r) →
      i < stmts.length →
      c (stmts.getD i ("", .undef)).1 (stmts.getD i ("", .undef)).2 = .error e →
      runSeq c stmts = (.error e, stmts.take (i + 1)) := by
  induction stmts with
  | nil => intro i e _ hi _; simp at hi
  | cons sp rest ih =>
    intro i e hsucc hi hfail
    obtain ⟨s, p⟩ := sp
    cases i with
    | zero =>
      simp only [List.getD_cons_zero] at hfail
      simp [runSeq, hfail]
    | succ i =>
      obtain ⟨r, hr⟩ := hsucc 0 (Nat.succ_pos _)
      simp only [List.getD_cons_zero] at hr
      have hrec := ih i e (fun j hj => by
          have := hsucc (j + 1) (by omega)
          simpa using this)
        (by simpa using hi)
        (by simpa using hfail)
      simp [runSeq, hr, hrec]

/-- The sequential loop on a statement list on which every statement
succeeds returns the results in input order and issues every call, in input
order. -/
theorem runSeq_all_ok (c : ClientFn) (stmts : List Call) :
    ∀ (rs : Nat → QueryRes),
      (∀ j, j < stmts.length →
        c (stmts.getD j ("", .undef)).1 (stmts.getD j ("", .undef)).2 = .ok (rs j)) →
      runSeq c stmts = (.ok ((List.range stmts.length).map rs), stmts) := by
  induction stmts with
  | nil => intro rs _; simp [runSeq]
  | cons sp rest ih =>
    intro rs h
    obtain ⟨s, p⟩ := sp
    have h0 := h 0 (Nat.succ_pos _)
    simp only [List.getD_cons_zero] at h0
    have hrec := ih (fun j => rs (j + 1)) (fun j hj => by
      have := h (j + 1) (by simp only [List.length_cons]; omega)
      simpa using this)
    simp [runSeq, h0, hrec]
    rw [List.range_succ_eq_map]
    simp [Function.comp]

/-- Collecting all-fulfilled outcomes yields the results positionally, in
input order. -/
theorem collectOk_all_ok (g : Call → Except JsError QueryRes) (l : List Call) :
    ∀ (rs : Nat → QueryRes),
      (∀ j, j < l.length → g (l.getD j ("", .undef)) = .ok (rs j)) →
      collectOk (l.map g) = .ok ((List.range l.length).map rs) := by
  induction l with
  | nil => intro rs _; simp [collectOk]
  | cons sp rest ih =>
    intro rs h
    have h0 := h 0 (Nat.succ_pos _)
    simp only [List.getD_cons_zero] at h0
    have hrec := ih (fun j => rs (j + 1)) (fun j hj => by
      have := h (j + 1) (by simp only [List.length_cons]; omega)
      simpa using this)
    simp [collectOk, h0, hrec, Except.map]
    rw [List.range_succ_eq_map]
    simp [Function.comp]

/-- When every dispatched outcome is fulfilled there is no rejection, in any
completion order. -/
theorem firstRejection_none (outcomes : List (Except JsError QueryRes))
    (h : ∀ o ∈ outcomes, ∃ r, o = .ok r) :
    ∀ ord, firstRejection outcomes ord = none := by
  intro ord
  induction ord with
  | nil => rfl
  | cons i rest ih =>
    have hok : ∃ r, outcomes.getD i (.ok ⟨[]⟩) = .ok r := by
      rcases Nat.lt_or_ge i outcomes.length with hlt | hge
      · have hmem : outcomes.getD i (.ok ⟨[]⟩) ∈ outcomes := by
          rw [List.getD_eq_getElem _ _ hlt]
          exact List.getElem_mem hlt
        exact h _ hmem
      · rw [List.getD_eq_default _ _ hge]
        exact ⟨⟨[]⟩, rfl⟩
    obtain ⟨r, hr⟩ := hok
    rw [firstRejection, hr]
    exact ih

/-- Indexing a zip below both lengths indexes the components. -/
theorem zip_getD {α β : Type} (d1 : α) (d2 : β) (l1 : List α) :
    ∀ (l2 : List β) (j : Nat), j < l1.length → j < l2.length →
      (l1.zip l2).getD j (d1, d2) = (l1.getD j d1, l2.getD j d2) := by
  induction l1 with
  | nil => intro l2 j h1 _; simp at h1
  | cons a l1 ih =>
    intro l2 j h1 h2
    cases l2 with
    | nil => simp at h2
    | cons b l2 =>
      cases j with
      | zero => simp
      | succ j =>
        have hz := ih l2 j (by simpa using h1) (by simpa using h2)
        simpa using hz

/-- Indexing a mapped list below its length maps the indexed element. -/
theorem map_getD_lt {α β : Type} (f : α → β) (d : α) (l : List α) :
    ∀ (j : Nat), j < l.length → (l.map f).getD j (f d) = f (l.getD j d) := by
  induction l with
  | nil => intro j h; simp at h
  | cons a l ih =>
    intro j h
    cases j with
    | zero => simp
    | succ j =>
      simp only [List.map_cons, List.getD_cons_succ]
      exact ih j (by simpa using h)

/-- A failing delegate surfaces from `query()` through the shared catch
clause. -/
theorem txQuery_err (client : Option ClientFn) (gen : Nat → Ref) (st : TxState)
    (sql : String ⊕ List String) (params : JsVal) (options : ExecOptions)
    (ord : List Nat) (e : JsError)
    (h : (executeDbQuery client sql params options ord).1 = .error e) :
    (Tx.query client gen st sql params options ord).1 = .error (Tx.wrapInitQuery e) ∧
    (Tx.query client gen st sql params options ord).2.1 = st := by
  unfold Tx.query
  rcases hx : executeDbQuery client sql params options ord with ⟨res, calls, n⟩
  rw [hx] at h
  simp only at h
  subst h
  simp

/-- A successful delegate makes `query()` succeed and overwrite the closure
state with a freshly generated reference. -/
theorem txQuery_ok (client : Option ClientFn) (gen : Nat → Ref) (st : TxState)
    (sql : String ⊕ List String) (params : JsVal) (options : ExecOptions)
    (ord : List Nat) (r : QueryOutcome)
    (h : (executeDbQuery client sql params options ord).1 = .ok r) :
    (Tx.query client gen st sql params options ord).1 = .ok r ∧
    (Tx.query client gen st sql params options ord).2.1 =
      ⟨some (gen st.genCount).uuid, some (gen st.genCount).timestamp, st.genCount + 1⟩ := by
  unfold Tx.query
  rcases hx : executeDbQuery client sql params options ord with ⟨res, calls, n⟩
  rw [hx] at h
  simp only at h
  subst h
  simp

/-- C3 (confirmed): a unit of work that fails with a conflict signature on
every invocation is invoked exactly 3 times by the deadlock-aware executor
with attempt budget 3, and the final conflict failure is surfaced unchanged;
a non-conflict failure on the first invocation is propagated unchanged with
no further invocation. -/
theorem retry_semantics {α τ : Type} (work : Nat → Except JsError α × List τ) :
    ((∀ n, ∃ e, (work n).1 = .error e ∧ isConflict e = true) →
      (manageDeadlocks 3 work).1 = (work 3).1 ∧ (manageDeadlocks 3 work).2.2 = 3) ∧
    (∀ e, (work 1).1 = .error e → isConflict e = false →
      (manageDeadlocks 3 work).1 = .error e ∧ (manageDeadlocks 3 work).2.2 = 1) := by
  constructor
  · intro h
    obtain ⟨e1, he1, hc1⟩ := h 1
    obtain ⟨e2, he2, hc2⟩ := h 2
    obtain ⟨e3, he3, hc3⟩ := h 3
    have hw1 : work 1 = (.error e1, (work 1).2) := by rw [← he1]
    have hw2 : work 2 = (.error e2, (work 2).2) := by rw [← he2]
    have hw3 : work 3 = (.error e3, (work 3).2) := by rw [← he3]
    rw [manageDeadlocks]
    norm_num
    rw [retryLoop, hw1]
    simp only [hc1, if_true]
    rw [retryLoop, hw2]
    simp only [hc2, if_true]
    rw [retryLoop, hw3]
    simp only [hc3, if_true]
    simp [he3]
  · intro e he hc
    have hw1 : work 1 = (.error e, (work 1).2) := by rw [← he]
    rw [manageDeadlocks]
    norm_num
    rw [retryLoop, hw1]
    simp [hc]

/-- Witness for C3: a concrete always-conflicting unit of work is invoked 3
times and its final failure surfaces; a concrete non-conflicting one is
invoked once. -/
theorem retry_semantics_witness :
    ((manageDeadlocks 3 workW).1 = (workW 3).1 ∧ (manageDeadlocks 3 workW).2.2 = 3) ∧
    ((manageDeadlocks 3 workW2).1 = .error (newDatabaseError "boom") ∧
      (manageDeadlocks 3 workW2).2.2 = 1) :=
  ⟨(retry_semantics workW).1 (fun _ => ⟨.pgError "deadlock detected" "40P01", rfl, by decide⟩),
   (retry_semantics workW2).2 (newDatabaseError "boom") rfl (by decide)⟩

/-- C1 counterexample: on a manager with a bound client whose abort command
fails, `rollback()` rejects with that failure instead of resolving. -/
theorem rollback_can_fail :
    (Tx.rollback (some cRB) txStart).1 =
      .error (.pgError "connection terminated" "57P01") ∧
    (Tx.rollback (some cRB) txStart).1 ≠ .ok () := by
  decide

/-- C1 (corrected): `rollback()` resolves as a no-op issuing no command when
no client is bound; when a client is bound it issues the abort command and
resolves on its success, but a failure of the abort command itself
propagates unchanged (rollback is not wrapped in any error handling). -/
theorem rollback_behaviour (client : Option ClientFn) (st : TxState) :
    (client = none → Tx.rollback client st = (.ok (), st, [])) ∧
    (∀ c r, client = some c → c "ROLLBACK" .undef = .ok r →
      Tx.rollback client st = (.ok (), st, [("ROLLBACK", .undef)])) ∧
    (∀ c e, client = some c → c "ROLLBACK" .undef = .error e →
      Tx.rollback client st = (.error e, st, [("ROLLBACK", .undef)])) := by
  refine ⟨?_, ?_, ?_⟩
  · rintro rfl; rfl
  · rintro c r rfl h; simp [Tx.rollback, h]
  · rintro c e rfl h; simp [Tx.rollback, h]

/-- Witness for C1 at a concrete unbound manager and a concrete manager
whose abort command fails. -/
theorem rollback_behaviour_witness :
    Tx.rollback none txStart = (.ok (), txStart, []) ∧
    Tx.rollback (some cRB) txStart =
      (.error (.pgError "connection terminated" "57P01"), txStart,
        [("ROLLBACK", .undef)]) :=
  ⟨(rollback_behaviour none txStart).1 rfl,
   (rollback_behaviour (some cRB) txStart).2.2 cRB
     (.pgError "connection terminated" "57P01") rfl (by decide)⟩

/-- C2 counterexample: a driver failure of the commit command — neither
database- nor transaction-classified — is not rethrown unchanged but wrapped
into a transaction-classified error. -/
theorem commit_wraps_driver_error :
    (Tx.commit (some cCM) txStart).1 =
      .error (.transactionError "Failed to commit transaction: 40P01" "TRANSACTION_ERR") ∧
    (Tx.commit (some cCM) txStart).1 ≠ .error (.pgError "deadlock detected" "40P01") := by
  decide

/-- C2 (corrected): in `init()` and `query()`, a database/transaction-
classified cause is replaced by a transaction-classified error whose message
adds context and records only the cause code (kind, code field and message
of the cause are not preserved), and any other cause is rethrown unchanged;
in `commit()`, every cause is wrapped into a transaction-classified error —
with added context and the cause code in the message when the cause code is
not `CONN_NOT_INIT`, and with the cause message and code otherwise. -/
theorem tx_error_wrapping (c : ClientFn) (gen : Nat → Ref) (st : TxState)
    (sql : String ⊕ List String) (params : JsVal) (options : ExecOptions)
    (ord : List Nat) (e : JsError) :
    (c "BEGIN" .undef = .error e → e.isDatabaseError = false →
      e.isTransactionError = false → (Tx.init (some c) st).1 = .error e) ∧
    (c "BEGIN" .undef = .error e →
      (e.isDatabaseError = true ∨ e.isTransactionError = true) →
      (Tx.init (some c) st).1 =
        .error (newTransactionError ("Failed to initialize transaction: " ++ e.code))) ∧
    ((executeDbQuery (some c) sql params options ord).1 = .error e →
      e.isDatabaseError = false → e.isTransactionError = false →
      (Tx.query (some c) gen st sql params options ord).1 = .error e) ∧
    ((executeDbQuery (some c) sql params options ord).1 = .error e →
      (e.isDatabaseError = true ∨ e.isTransactionError = true) →
      (Tx.query (some c) gen st sql params options ord).1 =
        .error (newTransactionError ("Failed to initialize transaction: " ++ e.code))) ∧
    (c "COMMIT" .undef = .error e → e.code ≠ "CONN_NOT_INIT" →
      (Tx.commit (some c) st).1 =
        .error (newTransactionError ("Failed to commit transaction: " ++ e.code))) ∧
    (c "COMMIT" .undef = .error e → e.code = "CONN_NOT_INIT" →
      (Tx.commit (some c) st).1 = .error (.transactionError e.message e.code)) := by
  refine ⟨?_, ?_, ?_, ?_, ?_, ?_⟩
  · intro h h1 h2
    simp [Tx.init, h, Tx.wrapInitQuery, h1, h2]
  · intro h h12
    rcases h12 with h1 | h1 <;> simp [Tx.init, h, Tx.wrapInitQuery, h1]
  · intro h h1 h2
    rw [(txQuery_err (some c) gen st sql params options ord e h).1]
    simp [Tx.wrapInitQuery, h1, h2]
  · intro h h12
    rw [(txQuery_err (some c) gen st sql params options ord e h).1]
    rcases h12 with h1 | h1 <;> simp [Tx.wrapInitQuery, h1]
  · intro h h1
    simp [Tx.commit, h, Tx.wrapCommit, h1]
  · intro h h1
    simp [Tx.commit, h, Tx.wrapCommit, h1]

/-- Witness for C2: evaluation of all six wrapping cases at concrete
clients — a driver failure (rethrown by init/query, wrapped by commit) and a
database-classified failure (wrapped by init/query; commit keeps message and
code since the code is `CONN_NOT_INIT`). -/
theorem tx_error_wrapping_witness :
    (Tx.init (some cFailAll) txStart).1 = .error (.pgError "syntax error" "42601") ∧
    (Tx.query (some cFailAll) genW txStart (.inl "SELECT 1") (.arr []) ⟨false⟩ []).1 =
      .error (.pgError "syntax error" "42601") ∧
    (Tx.commit (some cFailAll) txStart).1 =
      .error (.transactionError "Failed to commit transaction: 42601" "TRANSACTION_ERR") ∧
    (Tx.init (some cConnNotInit) txStart).1 =
      .error (.transactionError "Failed to initialize transaction: CONN_NOT_INIT" "TRANSACTION_ERR") ∧
    (Tx.query (some cConnNotInit) genW txStart (.inl "SELECT 1") (.arr []) ⟨false⟩ []).1 =
      .error (.transactionError "Failed to initialize transaction: CONN_NOT_INIT" "TRANSACTION_ERR") ∧
    (Tx.commit (some cConnNotInit) txStart).1 =
      .error (.transactionError "connection not initialized" "CONN_NOT_INIT") :=
  ⟨(tx_error_wrapping cFailAll genW txStart (.inl "SELECT 1") (.arr []) ⟨false⟩ []
      (.pgError "syntax error" "42601")).1 rfl rfl rfl,
   (tx_error_wrapping cFailAll genW txStart (.inl "SELECT 1") (.arr []) ⟨false⟩ []
      (.pgError "syntax error" "42601")).2.2.1 (by decide) rfl rfl,
   (tx_error_wrapping cFailAll genW txStart (.inl "SELECT 1") (.arr []) ⟨false⟩ []
      (.pgError "syntax error" "42601")).2.2.2.2.1 rfl (by decide),
   (tx_error_wrapping cConnNotInit genW txStart (.inl "SELECT 1") (.arr []) ⟨false⟩ []
      (.databaseError "connection not initialized" "CONN_NOT_INIT")).2.1 rfl (Or.inl rfl),
   (tx_error_wrapping cConnNotInit genW txStart (.inl "SELECT 1") (.arr []) ⟨false⟩ []
      (.databaseError "connection not initialized" "CONN_NOT_INIT")).2.2.2.1 (by decide) (Or.inl rfl),
   (tx_error_wrapping cConnNotInit genW txStart (.inl "SELECT 1") (.arr []) ⟨false⟩ []
      (.databaseError "connection not initialized" "CONN_NOT_INIT")).2.2.2.2.2 rfl rfl⟩

/-- C8 counterexample: a manager constructed with a bound client on which
`init()` was never called still issues the abort command on `rollback()`. -/
theorem rollback_without_init_issues_command :
    Tx.rollback (some cOk) txStart = (.ok (), txStart, [("ROLLBACK", JsVal.undef)]) ∧
    (Tx.rollback (some cOk) txStart).2.2 ≠ ([] : List Call) := by
  decide

/-- C8 (corrected): `rollback()` depends only on whether a client is bound,
never on whether `init()` ran: with no bound client it succeeds issuing no
command, and with a bound client it issues the abort command — including on
a manager on which `init()` was never called. -/
theorem rollback_ignores_lifecycle (st : TxState) :
    Tx.rollback none st = (.ok (), st, []) ∧
    ∀ c : ClientFn, (Tx.rollback (some c) st).2.2 = [("ROLLBACK", JsVal.undef)] := by
  refine ⟨rfl, fun c => ?_⟩
  rcases h : c "ROLLBACK" .undef with e | r <;> simp [Tx.rollback, h]

/-- C9 (code_bug): evaluation at the failing input — with no handle held,
`releaseConnection()` rejects with a `DatabaseError` carrying code `DB_ERR`
and issues no release call to the pool; the `CONN_NOT_INIT` guard in its
catch clause never matches the error its try block throws. -/
theorem releaseConnection_no_client_throws :
    releaseConnection none = (.error (.databaseError connMsg "DB_ERR"), false) ∧
    (releaseConnection none).1 ≠ .ok () := by
  decide

/-- C10 (confirmed): the `connection` field of `retrieve()` equals the
truthiness of the client bound at construction, before and after every
sequence of `init`, `query`, `commit` and `rollback` calls; in particular it
stays `true` after commit or rollback on a bound client. -/
theorem retrieve_connection_invariant (client : Option ClientFn) (gen : Nat → Ref)
    (st : TxState) (ops : List TxOp) :
    (Tx.retrieve client (txRun client gen st ops)).connection =
      (Tx.retrieve client st).connection ∧
    (Tx.retrieve client (txRun client gen st ops)).connection = client.isSome :=
  ⟨rfl, rfl⟩

/-- C6 (confirmed): a request whose `sql` is a sequence and whose `params`
is not a sequence of exactly the same length fails with the classified
mismatched-statements `DatabaseError`, issuing zero calls to the connection
handle, after a single invocation of the unit of work. -/
theorem mismatch_semantics (c : ClientFn) (sqls : List String) (params : JsVal)
    (options : ExecOptions) (ord : List Nat)
    (hmm : ∀ ps, params = JsVal.arr ps → sqls.length ≠ ps.length) :
    executeDbQuery (some c) (.inr sqls) params options ord =
      (.error (newDatabaseError "Mismatched SQL queries and parameters."), [], 1) := by
  have hatt : executeDbQueryAttempt (some c) (.inr sqls) params options ord =
      (.error (newDatabaseError "Mismatched SQL queries and parameters."), []) := by
    cases params with
    | undef => rfl
    | str s => rfl
    | arr ps =>
      have h := hmm ps rfl
      simp [executeDbQueryAttempt, h]
  rw [executeDbQuery, manageDeadlocks_const_err _ _ _ hatt]
  simp [isConflict, newDatabaseError, JsError.code]

/-- Witness for C6: two statements with one parameter set are rejected
before any call reaches a handle that would accept anything. -/
theorem mismatch_semantics_witness :
    executeDbQuery (some cOk) (.inr ["a", "b"]) (.arr [.arr []]) ⟨false⟩ [] =
      (.error (newDatabaseError "Mismatched SQL queries and parameters."), [], 1) :=
  mismatch_semantics cOk ["a", "b"] (.arr [.arr []]) ⟨false⟩ []
    (fun ps h => by
      injection h with h2
      subst h2
      decide)

/-- Indexing the zipped statement list below the statement count reads the
statement and its embedded parameter element. -/
theorem stmts_getD (sqls : List String) (ps : List JVal1)
    (hlen : sqls.length = ps.length) (j : Nat) (hj : j < sqls.length) :
    (sqls.zip (ps.map JVal1.toJsVal)).getD j ("", .undef) =
      (sqls.getD j "", (ps.getD j (.str "")).toJsVal) := by
  have hjm : j < (ps.map JVal1.toJsVal).length := by
    simpa using hlen ▸ hj
  have hjz : j < (sqls.zip (ps.map JVal1.toJsVal)).length := by
    simp [List.length_zip]
    omega
  rw [List.getD_eq_getElem _ _ hjz, List.getElem_zip, List.getElem_map,
    List.getD_eq_getElem _ _ hj, List.getD_eq_getElem _ _ (by omega : j < ps.length)]

/-- C4 (confirmed): a multi-statement request run with `parallel=false` whose
statements before index `i` succeed and whose statement `i` fails surfaces
exactly statement `i`'s classified error, and the call trace is the in-order
prefix of statements up to and including `i` — once for a non-conflict
failure and once per attempt for a conflict failure; statements after `i`
are never invoked and no rollback command is issued by the runner. -/
theorem sequential_failure_semantics
    (c : ClientFn) (sqls : List String) (ps : List JVal1) (ord : List Nat)
    (i : Nat) (e : JsError)
    (hlen : sqls.length = ps.length)
    (hi : i < sqls.length)
    (hok : ∀ j, j < i → ∃ r, c (sqls.getD j "") ((ps.getD j (.str "")).toJsVal) = .ok r)
    (hfail : c (sqls.getD i "") ((ps.getD i (.str "")).toJsVal) = .error e) :
    (executeDbQuery (some c) (.inr sqls) (.arr ps) ⟨false⟩ ord).1 = .error e ∧
    (executeDbQuery (some c) (.inr sqls) (.arr ps) ⟨false⟩ ord).2.1 =
      (List.replicate (if isConflict e then 3 else 1)
        ((sqls.zip (ps.map JVal1.toJsVal)).take (i + 1))).flatten := by
  have hlen2 : (sqls.zip (ps.map JVal1.toJsVal)).length = sqls.length := by
    simp [List.length_zip]
    omega
  have hok2 : ∀ j, j < i →
      ∃ r, c ((sqls.zip (ps.map JVal1.toJsVal)).getD j ("", .undef)).1
        ((sqls.zip (ps.map JVal1.toJsVal)).getD j ("", .undef)).2 = .ok r := by
    intro j hj
    rw [stmts_getD sqls ps hlen j (by omega)]
    exact hok j hj
  have hfail2 : c ((sqls.zip (ps.map JVal1.toJsVal)).getD i ("", .undef)).1
      ((sqls.zip (ps.map JVal1.toJsVal)).getD i ("", .undef)).2 = .error e := by
    rw [stmts_getD sqls ps hlen i hi]
    exact hfail
  have hrs := runSeq_fail_take c (sqls.zip (ps.map JVal1.toJsVal)) i e hok2
    (by omega) hfail2
  have hatt : executeDbQueryAttempt (some c) (.inr sqls) (.arr ps) ⟨false⟩ ord =
      (.error e, (sqls.zip (ps.map JVal1.toJsVal)).take (i + 1)) := by
    simp [executeDbQueryAttempt, hlen, hrs, Except.map]
  rw [executeDbQuery, manageDeadlocks_const_err _ _ _ hatt]
  by_cases hc : isConflict e <;> simp [hc]

/-- Witness for C4: on `["a", "b", "x"]` with statement `"b"` failing, the
trace holds exactly the calls for `"a"` and `"b"`, in order, and the error is
`"b"`'s classified error. -/
theorem sequential_failure_witness :
    (executeDbQuery (some cSeq) (.inr ["a", "b", "x"])
      (.arr [.arr [], .arr [], .arr []]) ⟨false⟩ []).1 =
      .error (.pgError "syntax error" "42601") ∧
    (executeDbQuery (some cSeq) (.inr ["a", "b", "x"])
      (.arr [.arr [], .arr [], .arr []]) ⟨false⟩ []).2.1 =
      [("a", JsVal.arr []), ("b", JsVal.arr [])] := by
  have h := sequential_failure_semantics cSeq ["a", "b", "x"]
    [.arr [], .arr [], .arr []] [] 1 (.pgError "syntax error" "42601")
    (by decide) (by decide)
    (fun j hj => by
      have hj0 : j = 0 := by omega
      subst hj0
      exact ⟨⟨["r"]⟩, by decide⟩)
    (by decide)
  refine ⟨h.1, ?_⟩
  rw [h.2]
  decide

/-- C5 (confirmed): a multi-statement request run with `parallel=true` on
which every statement succeeds returns one result per input statement, in
input order, for every completion order of the dispatched statements; every
statement is dispatched and the unit of work runs once. -/
theorem parallel_input_order
    (c : ClientFn) (sqls : List String) (ps : List JVal1) (ord : List Nat)
    (rs : Nat → QueryRes)
    (hlen : sqls.length = ps.length)
    (hok : ∀ j, j < sqls.length →
      c (sqls.getD j "") ((ps.getD j (.str "")).toJsVal) = .ok (rs j)) :
    executeDbQuery (some c) (.inr sqls) (.arr ps) ⟨true⟩ ord =
      (.ok (.inr ((List.range sqls.length).map rs)),
        sqls.zip (ps.map JVal1.toJsVal), 1) := by
  have hlen2 : (sqls.zip (ps.map JVal1.toJsVal)).length = sqls.length := by
    simp [List.length_zip]
    omega
  have hok2 : ∀ j, j < (sqls.zip (ps.map JVal1.toJsVal)).length →
      (fun sp => c sp.1 sp.2) ((sqls.zip (ps.map JVal1.toJsVal)).getD j ("", .undef)) =
        .ok (rs j) := by
    intro j hj
    rw [stmts_getD sqls ps hlen j (by omega)]
    exact hok j (by omega)
  have hcollect := collectOk_all_ok (fun sp => c sp.1 sp.2)
    (sqls.zip (ps.map JVal1.toJsVal)) rs hok2
  have hall : ∀ o ∈ (sqls.zip (ps.map JVal1.toJsVal)).map (fun sp => c sp.1 sp.2),
      ∃ r, o = .ok r := by
    intro o ho
    rw [List.mem_map] at ho
    obtain ⟨sp, hsp, rfl⟩ := ho
    obtain ⟨j, hj, hspj⟩ := List.getElem_of_mem hsp
    have hgd : (sqls.zip (ps.map JVal1.toJsVal)).getD j ("", .undef) = sp := by
      rw [List.getD_eq_getElem _ _ hj, hspj]
    exact ⟨rs j, by rw [← hgd]; exact hok2 j hj⟩
  have hfr := firstRejection_none _ hall ord
  have hatt : executeDbQueryAttempt (some c) (.inr sqls) (.arr ps) ⟨true⟩ ord =
      (.ok (.inr ((List.range sqls.length).map rs)),
        sqls.zip (ps.map JVal1.toJsVal)) := by
    simp [executeDbQueryAttempt, hlen, promiseAll, hfr, hcollect, hlen2, Except.map]
  rw [executeDbQuery, manageDeadlocks_const_ok _ _ _ hatt]

/-- Witness for C5: both statements of `["a", "b"]` succeed and the results
come back in input order even under the reversed completion order `[1, 0]`. -/
theorem parallel_input_order_witness :
    executeDbQuery (some cEcho) (.inr ["a", "b"]) (.arr [.arr [], .arr []])
      ⟨true⟩ [1, 0] =
      (.ok (.inr [⟨["a"]⟩, ⟨["b"]⟩]),
        [("a", JsVal.arr []), ("b", JsVal.arr [])], 1) := by
  have h := parallel_input_order cEcho ["a", "b"] [.arr [], .arr []] [1, 0]
    (fun j => ⟨[["a", "b"].getD j ""]⟩) (by decide)
    (fun j hj => by
      have hj2 : j < 2 := by simpa using hj
      interval_cases j <;> decide)
  rw [h]
  decide

/-- C7 (confirmed): the reference metadata is mutated only by a successful
`query()` — `init`, `commit` and `rollback` leave it untouched, a failed
`query()` leaves it untouched, and a successful `query()` overwrites it with
exactly the freshly generated reference; consequently after
`init(); query(S1); query(S2)` with both queries successful, `retrieve()`
carries exactly the reference generated after S2 and (when the generator
produced distinct references) not the one generated after S1. -/
theorem metadata_semantics (client : Option ClientFn) (gen : Nat → Ref)
    (st : TxState) (sql : String ⊕ List String) (params : JsVal)
    (options : ExecOptions) (ord : List Nat) :
    ((Tx.init client st).2.1 = st) ∧
    ((Tx.commit client st).2.1 = st) ∧
    ((Tx.rollback client st).2.1 = st) ∧
    (∀ e, (executeDbQuery client sql params options ord).1 = .error e →
      (Tx.query client gen st sql params options ord).2.1 = st) ∧
    (∀ r, (executeDbQuery client sql params options ord).1 = .ok r →
      (Tx.query client gen st sql params options ord).2.1 =
        ⟨some (gen st.genCount).uuid, some (gen st.genCount).timestamp,
          st.genCount + 1⟩) ∧
    (∀ sql1 params1 o1 ord1 sql2 params2 o2 ord2
        (r1 r2 : QueryOutcome),
      (executeDbQuery client sql1 params1 o1 ord1).1 = .ok r1 →
      (executeDbQuery client sql2 params2 o2 ord2).1 = .ok r2 →
      gen 0 ≠ gen 1 →
      (Tx.retrieve client (txRun client gen txStart
          [.opInit, .opQuery sql1 params1 o1 ord1,
            .opQuery sql2 params2 o2 ord2])).referenceNo = some (gen 1).uuid ∧
      (Tx.retrieve client (txRun client gen txStart
          [.opInit, .opQuery sql1 params1 o1 ord1,
            .opQuery sql2 params2 o2 ord2])).timestamp = some (gen 1).timestamp ∧
      ¬((Tx.retrieve client (txRun client gen txStart
          [.opInit, .opQuery sql1 params1 o1 ord1,
            .opQuery sql2 params2 o2 ord2])).referenceNo = some (gen 0).uuid ∧
        (Tx.retrieve client (txRun client gen txStart
          [.opInit, .opQuery sql1 params1 o1 ord1,
            .opQuery sql2 params2 o2 ord2])).timestamp = some (gen 0).timestamp)) := by
  have hinit : ∀ st', (Tx.init client st').2.1 = st' := by
    intro st'
    rcases client with _ | c
    · rfl
    · rcases h : c "BEGIN" .undef with e | r <;> simp [Tx.init, h]
  refine ⟨hinit st, ?_, ?_, ?_, ?_, ?_⟩
  · rcases client with _ | c
    · rfl
    · rcases h : c "COMMIT" .undef with e | r <;> simp [Tx.commit, h]
  · rcases client with _ | c
    · rfl
    · rcases h : c "ROLLBACK" .undef with e | r <;> simp [Tx.rollback, h]
  · intro e he
    exact (txQuery_err client gen st sql params options ord e he).2
  · intro r hr
    exact (txQuery_ok client gen st sql params options ord r hr).2
  · intro sql1 params1 o1 ord1 sql2 params2 o2 ord2 r1 r2 h1 h2 hne
    have hst1 : txStep client gen txStart .opInit = txStart := hinit txStart
    have hst2 : txStep client gen txStart (.opQuery sql1 params1 o1 ord1) =
        ⟨some (gen 0).uuid, some (gen 0).timestamp, 1⟩ :=
      (txQuery_ok client gen txStart sql1 params1 o1 ord1 r1 h1).2
    have hst3 : txStep client gen ⟨some (gen 0).uuid, some (gen 0).timestamp, 1⟩
        (.opQuery sql2 params2 o2 ord2) =
        ⟨some (gen 1).uuid, some (gen 1).timestamp, 2⟩ :=
      (txQuery_ok client gen ⟨some (gen 0).uuid, some (gen 0).timestamp, 1⟩
        sql2 params2 o2 ord2 r2 h2).2
    have hrun : txRun client gen txStart
        [.opInit, .opQuery sql1 params1 o1 ord1, .opQuery sql2 params2 o2 ord2] =
        ⟨some (gen 1).uuid, some (gen 1).timestamp, 2⟩ := by
      rw [txRun, hst1, txRun, hst2, txRun, hst3, txRun]
    rw [hrun]
    refine ⟨rfl, rfl, ?_⟩
    rintro ⟨ha, hb⟩
    apply hne
    have hu : (gen 1).uuid = (gen 0).uuid := by
      simpa [Tx.retrieve] using ha
    have ht : (gen 1).timestamp = (gen 0).timestamp := by
      simpa [Tx.retrieve] using hb
    cases hg0 : gen 0 with
    | mk u0 t0 =>
      cases hg1 : gen 1 with
      | mk u1 t1 =>
        rw [hg0, hg1] at hu ht
        simp only at hu ht
        rw [hu, ht]

/-- Witness for C7: with an always-succeeding handle and a concrete
generator with distinct references, a successful query overwrites the state
with the fresh reference, and after two queries `retrieve()` carries the
second reference. -/
theorem metadata_semantics_witness :
    (Tx.query (some cOk) genW txStart (.inl "SELECT 1") (.arr []) ⟨false⟩ []).2.1 =
      ⟨some (genW 0).uuid, some (genW 0).timestamp, 1⟩ ∧
    (Tx.retrieve (some cOk) (txRun (some cOk) genW txStart
      [.opInit, .opQuery (.inl "SELECT 1") (.arr []) ⟨false⟩ [],
        .opQuery (.inl "SELECT 2") (.arr []) ⟨false⟩ []])).referenceNo =
      some (genW 1).uuid :=
  ⟨(metadata_semantics (some cOk) genW txStart (.inl "SELECT 1") (.arr [])
      ⟨false⟩ []).2.2.2.2.1 (.inl ⟨[]⟩) (by decide),
   ((metadata_semantics (some cOk) genW txStart (.inl "SELECT 1") (.arr [])
      ⟨false⟩ []).2.2.2.2.2 (.inl "SELECT 1") (.arr []) ⟨false⟩ []
      (.inl "SELECT 2") (.arr []) ⟨false⟩ [] (.inl ⟨[]⟩) (.inl ⟨[]⟩)
      (by decide) (by decide) (by decide)).1⟩
